import Mathlib

/-!
Shallow embedding of `src/services/collab-editor/collab_service.py`
(the collaborative text-editing core: `Operation`, `Document`,
`OperationalTransform`, `CollaborativeSession`).

Embedding conventions:
- Python `str` buffers and payloads are `List Char`; `len` is `List.length`.
- Python integer positions are `Int` (transformed positions can go negative);
  document versions are `Nat` (the code only ever sets `version = 0` and
  increments it).
- Python slice expressions `s[:i]` and `s[i:]` are modelled by `pyTo` and
  `pyFrom` with exact Python semantics: out-of-range indices are clamped and
  negative indices count from the end.  Slicing therefore never raises, so the
  `try`/`except` in `Document.apply_operation` can never take its `except`
  branch for well-typed operations and the embedding returns `true`
  unconditionally as the success flag.
- `OperationalTransform.transform(op1, op2)` in the source reads `op1`,
  assigns `op2.position` in place and then returns `op2` itself.  The
  embedded `OperationalTransform.transform` returns the post-call field
  values of `op2` (which are also the field values of the returned object,
  since the returned object is `op2`); `op1` is never written.
- The `timestamp` fields (wall-clock `datetime.now()` defaults) carry no
  logic in the source and are omitted.
- Python dicts keyed by id are association lists.
-/

/-- Embeds the `User` dataclass (without the `connected_at` timestamp). -/
structure User where
  id : String
  username : String
  cursor_position : Int
deriving DecidableEq

/-- Embeds the `Operation` dataclass (without the `timestamp` field):
`type` is the kind string, `position` the offset, `content` the payload,
`user_id` the author, `version` the base version the client observed. -/
structure Operation where
  type : String
  position : Int
  content : List Char
  user_id : String
  version : Int
deriving DecidableEq

/-- Python slice prefix `s[:i]`: for `0 ≤ i` the first `min i (len s)`
characters; for `i < 0` the first `len s - min (-i) (len s)` characters
(negative indices count from the end, clamped at the start). -/
def pyTo (s : List Char) (i : Int) : List Char :=
  if 0 ≤ i then s.take i.toNat else s.take (s.length - (-i).toNat)

/-- Python slice suffix `s[i:]`, with the same index normalisation as `pyTo`. -/
def pyFrom (s : List Char) (i : Int) : List Char :=
  if 0 ≤ i then s.drop i.toNat else s.drop (s.length - (-i).toNat)

/-- The content transformation performed inside `Document.apply_operation`:
insert splices the payload at `position`, delete removes
`[position, position + len(payload))`, any other kind leaves the buffer
untouched (the Python `if`/`elif` chain has no `else`). -/
def applyContent (content : List Char) (op : Operation) : List Char :=
  if op.type == "insert" then
    pyTo content op.position ++ op.content ++ pyFrom content op.position
  else if op.type == "delete" then
    pyTo content op.position ++ pyFrom content (op.position + (op.content.length : Int))
  else
    content

/-- Embeds the `Document` class state: `content` buffer, `version` counter,
`operations_history` log. -/
structure Document where
  id : String
  content : List Char
  version : Nat
  operations_history : List Operation
deriving DecidableEq

/-- Embeds `Document.__init__(doc_id, initial_content="")`. -/
def Document.new (doc_id : String) (initial_content : List Char := []) : Document :=
  ⟨doc_id, initial_content, 0, []⟩

/-- Embeds `Document.apply_operation`: rewrites the buffer per the kind,
increments `version`, appends the operation to `operations_history`, and
returns `True`.  (Python slicing clamps out-of-range and negative indices
instead of raising, so the `except` branch returning `False` is dead code
for well-typed operations.) -/
def Document.apply_operation (self : Document) (operation : Operation) :
    Document × Bool :=
  ({ self with
      content := applyContent self.content operation
      version := self.version + 1
      operations_history := self.operations_history ++ [operation] }, true)

/-- The document produced by `Document.apply_operation` (dropping the
always-`True` success flag). -/
def Document.apply1 (self : Document) (operation : Operation) : Document :=
  (self.apply_operation operation).1

/-- Embeds `OperationalTransform.transform(op1, op2)`: the returned value is
`op2` after the in-place position adjustment (`op1` is only read).  The
`if`/`elif` chain covers insert/insert, delete/insert and insert/delete;
a delete/delete pair falls through every branch and `op2` is returned
unchanged. -/
def OperationalTransform.transform (op1 op2 : Operation) : Operation :=
  if op1.type == "insert" && op2.type == "insert" then
    if op1.position ≤ op2.position then
      { op2 with position := op2.position + (op1.content.length : Int) }
    else op2
  else if op1.type == "delete" && op2.type == "insert" then
    if op1.position < op2.position then
      { op2 with position := op2.position - (op1.content.length : Int) }
    else op2
  else if op1.type == "insert" && op2.type == "delete" then
    if op1.position ≤ op2.position then
      { op2 with position := op2.position + (op1.content.length : Int) }
    else op2
  else op2

/-- Embeds the `CollaborativeSession` state: one document, the user map,
and the `pending_operations` list (which no method of the source ever
appends to). -/
structure CollaborativeSession where
  id : String
  document : Document
  users : List (String × User)
  pending_operations : List Operation
deriving DecidableEq

/-- Embeds `CollaborativeSession.__init__(session_id, document_id)`. -/
def CollaborativeSession.new (session_id document_id : String) :
    CollaborativeSession :=
  ⟨session_id, Document.new document_id, [], []⟩

/-- Embeds `CollaborativeSession.add_user` (dict insert-or-overwrite). -/
def CollaborativeSession.add_user (self : CollaborativeSession) (user : User) :
    CollaborativeSession :=
  { self with
      users := self.users.filter (fun p => p.1 ≠ user.id) ++ [(user.id, user)] }

/-- Embeds `CollaborativeSession.remove_user`. -/
def CollaborativeSession.remove_user (self : CollaborativeSession)
    (user_id : String) : CollaborativeSession :=
  { self with users := self.users.filter (fun p => p.1 ≠ user_id) }

/-- The success payload of `CollaborativeSession.process_operation`. -/
structure ProcessResult where
  success : Bool
  operation : Operation
  document_version : Nat
  content : List Char
deriving DecidableEq

/-- Embeds `CollaborativeSession.process_operation`: folds
`OperationalTransform.transform` over `self.pending_operations` (each pending
operation as `op1`, the accumulating incoming operation as `op2`), then
applies the result to the document.  The Python failure branch is dead
because `apply_operation` always returns `True`. -/
def CollaborativeSession.process_operation (self : CollaborativeSession)
    (operation : Operation) : CollaborativeSession × ProcessResult :=
  let transformed_op :=
    self.pending_operations.foldl
      (fun acc pending_op => OperationalTransform.transform pending_op acc)
      operation
  let applied := self.document.apply_operation transformed_op
  ({ self with document := applied.1 },
   ⟨applied.2, transformed_op, applied.1.version, applied.1.content⟩)

/-- The document obtained by applying a list of operations in order, starting
from a fresh empty document (as `CollaborativeSession.__init__` creates it). -/
def buildDoc (doc_id : String) (ops : List Operation) : Document :=
  ops.foldl Document.apply1 (Document.new doc_id)

/-- Replaying a list of logged operations over a starting buffer, applying
each operation's content transformation in order. -/
def replayContent (start : List Char) (ops : List Operation) : List Char :=
  ops.foldl applyContent start

/-- Modelled from the spec (section 4.3, step 3), for comparison with the
source's `process_operation`: the corrected sequencing protocol resolves an
operation submitted at base version `v0` by folding `transform` over the
committed log entries `log[v0], ..., log[vN-1]` in order. -/
def specSequencerResolve (log : List Operation) (v0 : Nat) (op : Operation) :
    Operation :=
  (log.drop v0).foldl
    (fun acc entry => OperationalTransform.transform entry acc) op

/-- Folding `Document.apply1` transforms the content exactly as
`replayContent` does. -/
theorem foldl_apply1_content (l : List Operation) (d : Document) :
    (l.foldl Document.apply1 d).content = replayContent d.content l := by
  induction l generalizing d with
  | nil => rfl
  | cons op t ih =>
      rw [List.foldl_cons, ih]
      simp [Document.apply1, Document.apply_operation, replayContent]

/-- Folding `Document.apply1` appends exactly the folded operations to the
history log. -/
theorem foldl_apply1_history (l : List Operation) (d : Document) :
    (l.foldl Document.apply1 d).operations_history
      = d.operations_history ++ l := by
  induction l generalizing d with
  | nil => simp
  | cons op t ih =>
      rw [List.foldl_cons, ih]
      simp [Document.apply1, Document.apply_operation]

/-- Folding `Document.apply1` advances the version by exactly the number of
operations folded. -/
theorem foldl_apply1_version (l : List Operation) (d : Document) :
    (l.foldl Document.apply1 d).version = d.version + l.length := by
  induction l generalizing d with
  | nil => rfl
  | cons op t ih =>
      rw [List.foldl_cons, ih]
      simp [Document.apply1, Document.apply_operation]
      omega

/-- Claim C1: convergence fails on the code.  For the concurrent insert pair
`a = Insert(2, "XX", u1)` and `b = Insert(2, "YY", u2)` against the shared
base content `"abcd"`, applying `a` then `transform(a, b)` yields
`"abXXYYcd"` while applying `b` then `transform(b, a)` yields `"abYYXXcd"`:
the two application orders do not produce the same content. -/
theorem insert_insert_divergence :
    applyContent (applyContent "abcd".toList ⟨"insert", 2, "XX".toList, "u1", 0⟩)
        (OperationalTransform.transform ⟨"insert", 2, "XX".toList, "u1", 0⟩
          ⟨"insert", 2, "YY".toList, "u2", 0⟩)
      = "abXXYYcd".toList ∧
    applyContent (applyContent "abcd".toList ⟨"insert", 2, "YY".toList, "u2", 0⟩)
        (OperationalTransform.transform ⟨"insert", 2, "YY".toList, "u2", 0⟩
          ⟨"insert", 2, "XX".toList, "u1", 0⟩)
      = "abYYXXcd".toList ∧
    "abXXYYcd".toList ≠ "abYYXXcd".toList := by
  refine ⟨by decide, by decide, by decide⟩

/-- Claim C2: the session does not fold `transform` over the committed log.
A fresh session commits `a = Insert(0, "hello", userA, base 0)` reaching
version 1; then `b = Insert(0, "hi ", userB, base 0)` is submitted.  The
code's `process_operation` transforms `b` only against the empty
`pending_operations` list and applies it untouched, producing `"hi hello"`,
whereas the spec's fold over `log[0..1)` resolves `b` to position 5 and
would produce `"hellohi "`. -/
theorem sequencer_ignores_log_divergence :
    (((CollaborativeSession.new "s" "doc").process_operation
        ⟨"insert", 0, "hello".toList, "userA", 0⟩).1.document.version = 1 ∧
     ((CollaborativeSession.new "s" "doc").process_operation
        ⟨"insert", 0, "hello".toList, "userA", 0⟩).1.document.content
        = "hello".toList) ∧
    ((((CollaborativeSession.new "s" "doc").process_operation
        ⟨"insert", 0, "hello".toList, "userA", 0⟩).1.process_operation
        ⟨"insert", 0, "hi ".toList, "userB", 0⟩).1.document.content
        = "hi hello".toList) ∧
    (specSequencerResolve
        (((CollaborativeSession.new "s" "doc").process_operation
          ⟨"insert", 0, "hello".toList, "userA", 0⟩).1.document.operations_history)
        0 ⟨"insert", 0, "hi ".toList, "userB", 0⟩).position = 5 ∧
    (applyContent "hello".toList
        (specSequencerResolve
          (((CollaborativeSession.new "s" "doc").process_operation
            ⟨"insert", 0, "hello".toList, "userA", 0⟩).1.document.operations_history)
          0 ⟨"insert", 0, "hi ".toList, "userB", 0⟩)
      = "hellohi ".toList) ∧
    "hi hello".toList ≠ "hellohi ".toList := by
  refine ⟨⟨by decide, by decide⟩, by decide, by decide, by decide, by decide⟩

/-- Claim C3 counterexample: `transform` does not leave `b` field-for-field
unchanged.  For `a = Insert(1, "Q", u9)` and `b = Insert(3, "R", u8)` the
source executes `op2.position += len(op1.content)` and returns `op2`, so the
post-call value of `b` (which is also the returned object) differs from `b`'s
value before the call. -/
theorem transform_mutates_argument :
    OperationalTransform.transform ⟨"insert", 1, "Q".toList, "u9", 0⟩
        ⟨"insert", 3, "R".toList, "u8", 0⟩
      ≠ ⟨"insert", 3, "R".toList, "u8", 0⟩ := by
  decide

/-- Claim C3 amended: `transform(a, b)` never writes to `a`, and its result
— which is `b` itself after the in-place update — agrees with `b` on every
field except possibly `position`. -/
theorem transform_result_shape (a b : Operation) :
    (OperationalTransform.transform a b).type = b.type ∧
    (OperationalTransform.transform a b).content = b.content ∧
    (OperationalTransform.transform a b).user_id = b.user_id ∧
    (OperationalTransform.transform a b).version = b.version := by
  unfold OperationalTransform.transform
  repeat' split
  all_goals exact ⟨rfl, rfl, rfl, rfl⟩

/-- Claim C4: there is no author-id tie-break.  For the equal-position
inserts `a = Insert(0, "A", alice)` and `b = Insert(0, "B", bob)`, the code
shifts whichever operation is passed second — both `transform(a, b)` and
`transform(b, a)` land at position 1 — so the final fragment order follows
the commit order (`"AB"` if `a` commits first, `"BA"` if `b` does), not a
deterministic function of the fixed author ids. -/
theorem insert_tie_no_tiebreak :
    (OperationalTransform.transform ⟨"insert", 0, "A".toList, "alice", 0⟩
        ⟨"insert", 0, "B".toList, "bob", 0⟩).position = 1 ∧
    (OperationalTransform.transform ⟨"insert", 0, "B".toList, "bob", 0⟩
        ⟨"insert", 0, "A".toList, "alice", 0⟩).position = 1 ∧
    applyContent (applyContent [] ⟨"insert", 0, "A".toList, "alice", 0⟩)
        (OperationalTransform.transform ⟨"insert", 0, "A".toList, "alice", 0⟩
          ⟨"insert", 0, "B".toList, "bob", 0⟩) = "AB".toList ∧
    applyContent (applyContent [] ⟨"insert", 0, "B".toList, "bob", 0⟩)
        (OperationalTransform.transform ⟨"insert", 0, "B".toList, "bob", 0⟩
          ⟨"insert", 0, "A".toList, "alice", 0⟩) = "BA".toList ∧
    "AB".toList ≠ "BA".toList := by
  refine ⟨by decide, by decide, by decide, by decide, by decide⟩

/-- Claim C5: there is no delete/delete transform case.  For the fully
overlapping concurrent deletes `a = b' = Delete(0, "hello")` on base content
`"helloXYZ"`, `transform(a, b)` returns `b` unchanged instead of a
zero-length no-op, so applying `a` (leaving `"XYZ"`) and then the
untransformed `b` deletes five further characters, leaving `""` — two
deletions' effect instead of one. -/
theorem delete_delete_untransformed :
    OperationalTransform.transform ⟨"delete", 0, "hello".toList, "u1", 0⟩
        ⟨"delete", 0, "hello".toList, "u2", 0⟩
      = ⟨"delete", 0, "hello".toList, "u2", 0⟩ ∧
    applyContent "helloXYZ".toList ⟨"delete", 0, "hello".toList, "u1", 0⟩
      = "XYZ".toList ∧
    applyContent (applyContent "helloXYZ".toList
        ⟨"delete", 0, "hello".toList, "u1", 0⟩)
        (OperationalTransform.transform ⟨"delete", 0, "hello".toList, "u1", 0⟩
          ⟨"delete", 0, "hello".toList, "u2", 0⟩)
      = [] ∧
    ([] : List Char) ≠ "XYZ".toList := by
  refine ⟨by decide, by decide, by decide, by decide⟩

/-- Claim C6: out-of-range operations are not rejected.  Applying
`Insert(100, "X")` to a document whose content is `"abc"` (length 3) does
not fail with `OutOfRange`: Python slice clamping makes the apply succeed,
the content becomes `"abcX"`, the version advances to 1 and the operation is
appended to the log. -/
theorem out_of_range_accepted :
    ((Document.new "doc" "abc".toList).apply_operation
        ⟨"insert", 100, "X".toList, "u1", 0⟩).2 = true ∧
    ((Document.new "doc" "abc".toList).apply_operation
        ⟨"insert", 100, "X".toList, "u1", 0⟩).1.content = "abcX".toList ∧
    ((Document.new "doc" "abc".toList).apply_operation
        ⟨"insert", 100, "X".toList, "u1", 0⟩).1.version = 1 ∧
    ((Document.new "doc" "abc".toList).apply_operation
        ⟨"insert", 100, "X".toList, "u1", 0⟩).1.operations_history
      = [⟨"insert", 100, "X".toList, "u1", 0⟩] := by
  refine ⟨by decide, by decide, by decide, by decide⟩

/-- Claim C7: the transformed position can go negative.  For
`a = Delete(0, "abc")` (length 3) and `b = Insert(2, "x")`, the delete/insert
case subtracts the full payload length without clamping:
`transform(a, b).position = 2 - 3 = -1 < 0`. -/
theorem transform_negative_position :
    (OperationalTransform.transform ⟨"delete", 0, "abc".toList, "u1", 0⟩
        ⟨"insert", 2, "x".toList, "u2", 0⟩).position = -1 ∧
    ¬ (0 ≤ (OperationalTransform.transform ⟨"delete", 0, "abc".toList, "u1", 0⟩
        ⟨"insert", 2, "x".toList, "u2", 0⟩).position) := by
  refine ⟨by decide, by decide⟩

/-- Claim C8: replay determinism.  For every document reachable by applying
a list of operations to a fresh empty document (as sessions create them) and
every version `v` up to the current one, the prefix `ops.take v` is the state
the document had at version `v` (its version is exactly `v`), and replaying
the first `v` logged operations from empty content reproduces that state's
content. -/
theorem replay_determinism (doc_id : String) (ops : List Operation) (v : Nat)
    (h : v ≤ ops.length) :
    (buildDoc doc_id (ops.take v)).version = v ∧
    replayContent [] ((buildDoc doc_id ops).operations_history.take v)
      = (buildDoc doc_id (ops.take v)).content := by
  constructor
  · rw [buildDoc, foldl_apply1_version]
    simp [Document.new]
    omega
  · rw [buildDoc, buildDoc, foldl_apply1_history, foldl_apply1_content]
    simp [Document.new]

/-- Witness for `replay_determinism` at the concrete log
`[Insert(0, "hi", u1), Delete(0, "h", u2)]` and version `v = 1`. -/
theorem replay_determinism_witness :
    (1 ≤ ([⟨"insert", 0, "hi".toList, "u1", 0⟩,
           ⟨"delete", 0, "h".toList, "u2", 0⟩] : List Operation).length) ∧
    ((buildDoc "doc" (([⟨"insert", 0, "hi".toList, "u1", 0⟩,
           ⟨"delete", 0, "h".toList, "u2", 0⟩] : List Operation).take 1)).version
        = 1 ∧
     replayContent []
        ((buildDoc "doc" [⟨"insert", 0, "hi".toList, "u1", 0⟩,
           ⟨"delete", 0, "h".toList, "u2", 0⟩]).operations_history.take 1)
      = (buildDoc "doc" (([⟨"insert", 0, "hi".toList, "u1", 0⟩,
           ⟨"delete", 0, "h".toList, "u2", 0⟩] : List Operation).take 1)).content) :=
  ⟨by decide,
   replay_determinism "doc"
     [⟨"insert", 0, "hi".toList, "u1", 0⟩, ⟨"delete", 0, "h".toList, "u2", 0⟩]
     1 (by decide)⟩

/-- Claim C9: malformed operations are not rejected.  Applying the
malformed-kind operation `("replace", 0, "zzz", u1)` to a fresh empty
document is reported as a success, leaves the content unchanged, yet still
advances the version to 1 and appends the operation to the log — there is no
`InvalidOperation` rejection before apply. -/
theorem invalid_kind_advances_version :
    ((Document.new "doc").apply_operation
        ⟨"replace", 0, "zzz".toList, "u1", 0⟩).2 = true ∧
    ((Document.new "doc").apply_operation
        ⟨"replace", 0, "zzz".toList, "u1", 0⟩).1.content = [] ∧
    ((Document.new "doc").apply_operation
        ⟨"replace", 0, "zzz".toList, "u1", 0⟩).1.version = 1 ∧
    ((Document.new "doc").apply_operation
        ⟨"replace", 0, "zzz".toList, "u1", 0⟩).1.operations_history
      = [⟨"replace", 0, "zzz".toList, "u1", 0⟩] := by
  refine ⟨by decide, by decide, by decide, by decide⟩

/-- Claim C10: version/log invariant.  A fresh document has version 0 and an
empty history; every apply reports success, increments the version by
exactly 1 and appends exactly one entry; consequently every document built by
a sequence of applies has version equal to the length of its history. -/
theorem version_log_invariant (doc_id : String) (d : Document) (op : Operation)
    (ops : List Operation) :
    (Document.new doc_id).version = 0 ∧
    (Document.new doc_id).operations_history = [] ∧
    (d.apply_operation op).2 = true ∧
    (d.apply_operation op).1.version = d.version + 1 ∧
    (d.apply_operation op).1.operations_history
      = d.operations_history ++ [op] ∧
    (buildDoc doc_id ops).version
      = (buildDoc doc_id ops).operations_history.length := by
  refine ⟨rfl, rfl, rfl, rfl, rfl, ?_⟩
  rw [buildDoc, foldl_apply1_version, foldl_apply1_history]
  simp [Document.new]
